import Mathlib

/-!
Verification development for the `EPaperDisplay` driver in
`micropython_epaper_display.py` (2.13-inch e-paper panel, 122×250 px).

The driver is single-threaded and fully synchronous: every method is a
straight-line sequence of pin writes, SPI bus writes and delays.  We embed it
shallowly as functions producing an explicit event trace.  Two views are used:

* a **trace model** (`Ev` lists): each method denotes the ordered list of bus
  and pin events it emits, assuming the SPI transport succeeds.  `Ev.cmd b`
  stands for the framed command write `dc=0; cs=0; spi.write([b]); cs=1`,
  `Ev.dat b` / `Ev.burst bs` for the corresponding data-phase frames.
* a **pin-level model** (`send_command_hw` …) of the three Command Channel
  primitives with a fallible transport, tracking the data/command and
  chip-select pin values on both the success and the failure exit path.

The busy-wait loop `wait_until_idle` is modelled separately with an explicit
poll stream and fuel (`wait_until_idle_fuel`), since its termination depends
on the hardware busy line.
-/

namespace EPaperDisplay

/-- Display geometry constant `DISPLAY_WIDTH = 122` from the source. -/
def DISPLAY_WIDTH : Nat := 122

/-- Display geometry constant `DISPLAY_HEIGHT = 250` from the source. -/
def DISPLAY_HEIGHT : Nat := 250

/-- One observable event of the driver: a framed command byte, a framed single
data byte, a framed burst of data bytes, a write to the reset pin, a
microsecond or millisecond delay, or a completed busy-wait. -/
inductive Ev where
  | cmd (b : Nat)
  | dat (b : Nat)
  | burst (bs : List Nat)
  | rstSet (v : Nat)
  | sleepUs (n : Nat)
  | sleepMs (n : Nat)
  | waitIdle
  deriving DecidableEq, Repr

/-- Python `x >> n` on an arbitrary `int` is an arithmetic shift, i.e. floor
division by `2^n`; Lean's `Int` division is Euclidean, which coincides with
floor division for a positive divisor. -/
def pyShr (x : Int) (n : Nat) : Int := x / (2 ^ n)

/-- Python `x & 0xFF` on an arbitrary `int` is `x mod 256` (two's-complement
masking); Lean's `Int` `%` is `emod`, nonnegative for a positive modulus, so
the result is a byte value in `[0, 256)`. -/
def pyAnd8 (x : Int) : Nat := (x % 256).toNat

/-- `send_command(command)`: frame one byte with `dc=0` under one chip-select
window (trace view, transport assumed to succeed). -/
def send_command (command : Nat) : List Ev := [Ev.cmd command]

/-- `send_data(data)`: frame one byte with `dc=1` under one chip-select window
(trace view). -/
def send_data (data : Nat) : List Ev := [Ev.dat data]

/-- `send_bytes(data)`: frame a whole buffer with `dc=1` under one chip-select
window, written as a single transport call (trace view). -/
def send_bytes (data : List Nat) : List Ev := [Ev.burst data]

/-- `wait_until_idle()` in the trace view: polls the busy line until idle and
emits no bus bytes; recorded as a single marker event.  Its termination
behaviour is modelled by `wait_until_idle_fuel` below. -/
def wait_until_idle : List Ev := [Ev.waitIdle]

/-- `hw_reset()`: rst=1, 200 µs, rst=0, 200 µs, rst=1, 200 µs, then busy-wait. -/
def hw_reset : List Ev :=
  [Ev.rstSet 1, Ev.sleepUs 200, Ev.rstSet 0, Ev.sleepUs 200,
   Ev.rstSet 1, Ev.sleepUs 200] ++ wait_until_idle

/-- `sw_reset()`: command 0x12, 10 ms delay, busy-wait. -/
def sw_reset : List Ev :=
  send_command 0x12 ++ [Ev.sleepMs 10] ++ wait_until_idle

/-- `set_display_size_and_driver_output()`: command 0x01 with the three
parameter bytes 0xF9, 0x00, 0x00. -/
def set_display_size_and_driver_output : List Ev :=
  send_command 0x01 ++ send_data 0xF9 ++ send_data 0x00 ++ send_data 0x00

/-- `set_ram_data_entry_mode(mode)`: command 0x11 with one mode byte.  The
Python default argument is `mode=0x03`; call sites that use the default pass
`0x03` explicitly here. -/
def set_ram_data_entry_mode (mode : Nat) : List Ev :=
  send_command 0x11 ++ send_data mode

/-- `display_update()`: command 0x22 with parameter byte 0xF7. -/
def display_update : List Ev :=
  send_command 0x22 ++ send_data 0xF7

/-- `turn_on_display()`: `display_update()`, command 0x20, busy-wait. -/
def turn_on_display : List Ev :=
  display_update ++ send_command 0x20 ++ wait_until_idle

/-- `set_window(x_start, y_start, x_end, y_end)`: command 0x44 with
`(x_start>>3)&0xFF` and `(x_end>>3)&0xFF`, then command 0x45 with
`y_start&0xFF`, `(y_start>>8)&0xFF`, `y_end&0xFF`, `(y_end>>8)&0xFF`.
Arguments are arbitrary Python ints, hence `Int` here; the method performs no
range validation. -/
def set_window (x_start y_start x_end y_end : Int) : List Ev :=
  send_command 0x44 ++
  send_data (pyAnd8 (pyShr x_start 3)) ++
  send_data (pyAnd8 (pyShr x_end 3)) ++
  send_command 0x45 ++
  send_data (pyAnd8 y_start) ++
  send_data (pyAnd8 (pyShr y_start 8)) ++
  send_data (pyAnd8 y_end) ++
  send_data (pyAnd8 (pyShr y_end 8))

/-- `set_cursor(x, y)`: command 0x4E with `x&0xFF`, then command 0x4F with
`y&0xFF` and `(y>>8)&0xFF`.  No range validation. -/
def set_cursor (x y : Int) : List Ev :=
  send_command 0x4E ++
  send_data (pyAnd8 x) ++
  send_command 0x4F ++
  send_data (pyAnd8 y) ++
  send_data (pyAnd8 (pyShr y 8))

/-- `set_border(value)`: command 0x3C with one pattern byte.  The Python
default argument is `value=0xC0`. -/
def set_border (value : Nat) : List Ev :=
  send_command 0x3C ++ send_data value

/-- `init()`: hardware reset, software reset, driver-output control, RAM entry
mode (default 0x03), full-panel window, border (default 0xC0), busy-wait. -/
def init : List Ev :=
  hw_reset ++ sw_reset ++ set_display_size_and_driver_output ++
  set_ram_data_entry_mode 0x03 ++
  set_window 0 0 ((DISPLAY_WIDTH : Int) - 1) ((DISPLAY_HEIGHT : Int) - 1) ++
  set_border 0xC0 ++ wait_until_idle

/-- `display(image)`: cursor to (0,0), command 0x24 (WRITE_RAM), the whole
image buffer as one burst, then `turn_on_display()`.  There is no check of the
buffer length and no state check: the method is unconditional. -/
def display (image : List Nat) : List Ev :=
  set_cursor 0 0 ++ send_command 0x24 ++ send_bytes image ++ turn_on_display

/-- `clear(color)`: computes `linewidth` (`width/8`, rounded up when the width
is not a byte multiple), builds a buffer of `height * linewidth` copies of the
fill byte and hands it to `display`.  The Python default argument is
`color=0xFF`. -/
def clear (color : Nat) : List Ev :=
  let linewidth :=
    if DISPLAY_WIDTH % 8 = 0 then DISPLAY_WIDTH / 8 else DISPLAY_WIDTH / 8 + 1
  display (List.replicate (DISPLAY_HEIGHT * linewidth) color)

/-- `clear()` invoked with the Python default fill byte `color=0xFF`. -/
def clear_default : List Ev := clear 0xFF

/-- `deep_sleep()`: command 0x10 with parameter byte 0x01.  Nothing else: the
method records no state and disables nothing on the driver side. -/
def deep_sleep : List Ev :=
  send_command 0x10 ++ send_data 0x01

/-- Values of the three output pins the driver drives: reset, data/command
select, chip-select (bus-select). -/
structure PinState where
  rst : Nat
  dc : Nat
  cs : Nat
  deriving DecidableEq, Repr

/-- Pin effect of one trace event: a framed command leaves `dc=0, cs=1`, a
framed data byte or burst leaves `dc=1, cs=1` (chip-select is asserted low and
released high inside each frame), a reset-pin write sets `rst`, delays and
busy-waits touch no pin. -/
def stepChan (s : PinState) : Ev → PinState
  | Ev.cmd _ => { s with dc := 0, cs := 1 }
  | Ev.dat _ => { s with dc := 1, cs := 1 }
  | Ev.burst _ => { s with dc := 1, cs := 1 }
  | Ev.rstSet v => { s with rst := v }
  | Ev.sleepUs _ => s
  | Ev.sleepMs _ => s
  | Ev.waitIdle => s

/-- Run a trace's pin effects from a starting pin state. -/
def runChan (s : PinState) : List Ev → PinState
  | [] => s
  | e :: rest => runChan (stepChan s e) rest

/-- Exit record of a pin-level Command Channel primitive: the pin state at
exit, the bytes the transport actually accepted, and whether a transport error
propagated to the caller. -/
structure ChanExit where
  pins : PinState
  written : List Nat
  err : Bool
  deriving DecidableEq, Repr

/-- Pin-level `send_command(command)` with a fallible transport.  The source is
`dc.value(0); cs.value(0); spi.write(bytes([command])); cs.value(1)` with no
`try`/`finally`: when `spi.write` raises (modelled by `ok = false`), the final
`cs.value(1)` is never executed and the error propagates with `cs` still 0. -/
def send_command_hw (ok : Bool) (command : Nat) (s : PinState) : ChanExit :=
  let s1 := { s with dc := 0 }
  let s2 := { s1 with cs := 0 }
  if ok then { pins := { s2 with cs := 1 }, written := [command], err := false }
  else { pins := s2, written := [], err := true }

/-- Pin-level `send_data(data)` with a fallible transport; same shape as
`send_command_hw` but with `dc.value(1)`. -/
def send_data_hw (ok : Bool) (data : Nat) (s : PinState) : ChanExit :=
  let s1 := { s with dc := 1 }
  let s2 := { s1 with cs := 0 }
  if ok then { pins := { s2 with cs := 1 }, written := [data], err := false }
  else { pins := s2, written := [], err := true }

/-- Pin-level `send_bytes(data)` with a fallible transport; the whole buffer is
one transport call under one chip-select window. -/
def send_bytes_hw (ok : Bool) (data : List Nat) (s : PinState) : ChanExit :=
  let s1 := { s with dc := 1 }
  let s2 := { s1 with cs := 0 }
  if ok then { pins := { s2 with cs := 1 }, written := data, err := false }
  else { pins := s2, written := [], err := true }

/-- `wait_until_idle()` with explicit fuel.  `busy k` is the level the busy
pin reads on the `k`-th poll.  The loop body is
`while busy.value() == 1: time.sleep_ms(10)`: each poll that reads 1 costs one
10 ms sleep and one more iteration.  Returns `some (k, ms)` when the poll at
index `k` reads idle within the given fuel, where `ms` is the total
milliseconds slept; `none` when the fuel runs out with every poll busy. -/
def wait_until_idle_fuel (busy : Nat → Nat) : Nat → Nat → Nat → Option (Nat × Nat)
  | _, _, 0 => none
  | k, ms, fuel + 1 =>
    if busy k = 1 then wait_until_idle_fuel busy (k + 1) (ms + 10) fuel
    else some (k, ms)

/-- First count of bus command events carrying opcode `op` in a trace. -/
def countCmd (op : Nat) (t : List Ev) : Nat :=
  t.countP (fun e => match e with | Ev.cmd b => b == op | _ => false)

/-- Suffix of a trace strictly after the first command event with opcode `op`
(the whole trace is dropped when no such command occurs). -/
def afterCmd (op : Nat) : List Ev → List Ev
  | [] => []
  | Ev.cmd b :: rest => if b == op then rest else afterCmd op rest
  | _ :: rest => afterCmd op rest

/-- Soundness of the busy-wait loop: when `wait_until_idle_fuel` returns
`some (k2, ms2)` starting from poll index `k` with `ms` milliseconds already
slept, the poll at `k2` read idle, every earlier poll from `k` on read busy,
and exactly 10 ms were slept per busy poll. -/
theorem wfuel_sound (busy : Nat → Nat) :
    ∀ fuel k ms k2 ms2,
      wait_until_idle_fuel busy k ms fuel = some (k2, ms2) →
      busy k2 ≠ 1 ∧ (∀ j, k ≤ j → j < k2 → busy j = 1) ∧
        ms2 = ms + 10 * (k2 - k) ∧ k ≤ k2 := by
  intro fuel
  induction fuel with
  | zero => intro k ms k2 ms2 h; simp [wait_until_idle_fuel] at h
  | succ n ih =>
    intro k ms k2 ms2 h
    by_cases hb : busy k = 1
    · rw [wait_until_idle_fuel, if_pos hb] at h
      obtain ⟨h1, h2, h3, h4⟩ := ih (k + 1) (ms + 10) k2 ms2 h
      refine ⟨h1, ?_, by omega, by omega⟩
      intro j hj hj2
      rcases Nat.eq_or_lt_of_le hj with rfl | hlt
      · exact hb
      · exact h2 j hlt hj2
    · rw [wait_until_idle_fuel, if_neg hb] at h
      simp only [Option.some.injEq, Prod.mk.injEq] at h
      obtain ⟨rfl, rfl⟩ := h
      exact ⟨hb, by omega, by omega, Nat.le_refl k⟩

/-- Completeness of the busy-wait loop: if the poll at index `k + n` reads
idle, then `n + 1` iterations of fuel suffice for the loop to return. -/
theorem wfuel_complete (busy : Nat → Nat) :
    ∀ n k ms, busy (k + n) ≠ 1 →
      ∃ p, wait_until_idle_fuel busy k ms (n + 1) = some p := by
  intro n
  induction n with
  | zero =>
    intro k ms h
    rw [Nat.add_zero] at h
    exact ⟨(k, ms), by rw [wait_until_idle_fuel, if_neg h]⟩
  | succ n ih =>
    intro k ms h
    by_cases hb : busy k = 1
    · obtain ⟨p, hp⟩ :=
        ih (k + 1) (ms + 10) (by rw [show k + 1 + n = k + (n + 1) by omega]; exact h)
      exact ⟨p, by rw [wait_until_idle_fuel, if_pos hb]; exact hp⟩
    · exact ⟨(k, ms), by rw [wait_until_idle_fuel, if_neg hb]⟩

/-- Divergence of the busy-wait loop: on a busy line that always reads 1, no
amount of fuel makes the loop return — the source loop blocks forever. -/
theorem wfuel_diverges (busy : Nat → Nat) (hall : ∀ k, busy k = 1) :
    ∀ fuel k ms, wait_until_idle_fuel busy k ms fuel = none := by
  intro fuel
  induction fuel with
  | zero => intro k ms; rw [wait_until_idle_fuel]
  | succ n ih =>
    intro k ms
    rw [wait_until_idle_fuel, if_pos (hall k)]
    exact ih (k + 1) (ms + 10)

end EPaperDisplay

/-- C1, counterexample.  The claim states that a buffer whose length differs
from stride×height = 16×250 = 4000 is rejected with a ConfigurationError
before any command, data or burst byte reaches the bus.  The empty buffer has
the wrong length, yet `display` emits its full traffic: the first event is the
cursor command 0x4E and the WRITE_RAM command 0x24 is emitted exactly once —
nothing is rejected and no error path exists in the source. -/
theorem C1_counterexample :
    ([] : List Nat).length ≠ 16 * 250 ∧
    (EPaperDisplay.display []).head? = some (EPaperDisplay.Ev.cmd 0x4E) ∧
    EPaperDisplay.countCmd 0x24 (EPaperDisplay.display []) = 1 := by
  decide

/-- C1, amended.  `display` performs no length and no state validation: for
every buffer, of any length, it unconditionally emits cursor-set to (0,0),
WRITE_RAM (0x24), the buffer as one burst, and the refresh sequence
(0x22 F7, 0x20, busy-wait). -/
theorem C1_amended_no_validation (image : List Nat) :
    EPaperDisplay.display image =
      [EPaperDisplay.Ev.cmd 0x4E, EPaperDisplay.Ev.dat 0x00,
       EPaperDisplay.Ev.cmd 0x4F, EPaperDisplay.Ev.dat 0x00,
       EPaperDisplay.Ev.dat 0x00, EPaperDisplay.Ev.cmd 0x24,
       EPaperDisplay.Ev.burst image, EPaperDisplay.Ev.cmd 0x22,
       EPaperDisplay.Ev.dat 0xF7, EPaperDisplay.Ev.cmd 0x20,
       EPaperDisplay.Ev.waitIdle] := rfl

/-- C2, counterexample.  The claim states that from Sleep every operation
except hardware reset raises ConfigurationError.  In the code, `refresh`
(`turn_on_display`) invoked directly after `deep_sleep` emits its full byte
sequence 0x22, 0xF7, 0x20 on the bus — no operation is rejected and no
PowerState exists in the source. -/
theorem C2_counterexample :
    EPaperDisplay.deep_sleep ++ EPaperDisplay.turn_on_display =
      [EPaperDisplay.Ev.cmd 0x10, EPaperDisplay.Ev.dat 0x01,
       EPaperDisplay.Ev.cmd 0x22, EPaperDisplay.Ev.dat 0xF7,
       EPaperDisplay.Ev.cmd 0x20, EPaperDisplay.Ev.waitIdle] := rfl

/-- C2, amended.  The code maintains no PowerState and validates nothing:
`deep_sleep` only emits 0x10 0x01, and operations invoked after it (here
`display` and `turn_on_display`) still emit their full, unchanged traffic —
sequencing is plain trace concatenation with no failing transition. -/
theorem C2_amended_no_power_state (image : List Nat) :
    EPaperDisplay.deep_sleep =
      [EPaperDisplay.Ev.cmd 0x10, EPaperDisplay.Ev.dat 0x01] ∧
    EPaperDisplay.deep_sleep ++ EPaperDisplay.display image =
      EPaperDisplay.Ev.cmd 0x10 :: EPaperDisplay.Ev.dat 0x01 ::
        EPaperDisplay.display image ∧
    (EPaperDisplay.display image).length = 11 ∧
    EPaperDisplay.deep_sleep ++ EPaperDisplay.turn_on_display =
      EPaperDisplay.Ev.cmd 0x10 :: EPaperDisplay.Ev.dat 0x01 ::
        EPaperDisplay.turn_on_display ∧
    EPaperDisplay.turn_on_display ≠ [] := by
  refine ⟨rfl, rfl, rfl, rfl, by decide⟩

/-- C3, counterexample.  The claim states that each Command Channel primitive
releases bus-select (chip-select back to 1) on every exit path, including a
failing transport write.  In the source there is no try/finally: when the
write raises (modelled by `ok = false`), each of the three primitives
propagates the error with chip-select still asserted (cs = 0). -/
theorem C3_counterexample :
    (EPaperDisplay.send_command_hw false 0x12 ⟨1, 0, 1⟩).pins.cs = 0 ∧
    (EPaperDisplay.send_command_hw false 0x12 ⟨1, 0, 1⟩).err = true ∧
    (EPaperDisplay.send_data_hw false 0xF7 ⟨1, 1, 1⟩).pins.cs = 0 ∧
    (EPaperDisplay.send_data_hw false 0xF7 ⟨1, 1, 1⟩).err = true ∧
    (EPaperDisplay.send_bytes_hw false [1, 2, 3] ⟨1, 1, 1⟩).pins.cs = 0 ∧
    (EPaperDisplay.send_bytes_hw false [1, 2, 3] ⟨1, 1, 1⟩).err = true := by
  decide

/-- C3, amended.  Each of the three primitives releases chip-select on the
normal exit path (final cs = 1, no error); when the transport write raises,
the error propagates to the caller with chip-select still asserted
(final cs = 0) — there is no release on the failure path. -/
theorem C3_amended_release_on_success_only (c d : Nat) (bs : List Nat)
    (s : EPaperDisplay.PinState) :
    ((EPaperDisplay.send_command_hw true c s).pins.cs = 1 ∧
      (EPaperDisplay.send_command_hw true c s).err = false) ∧
    ((EPaperDisplay.send_command_hw false c s).pins.cs = 0 ∧
      (EPaperDisplay.send_command_hw false c s).err = true) ∧
    ((EPaperDisplay.send_data_hw true d s).pins.cs = 1 ∧
      (EPaperDisplay.send_data_hw true d s).err = false) ∧
    ((EPaperDisplay.send_data_hw false d s).pins.cs = 0 ∧
      (EPaperDisplay.send_data_hw false d s).err = true) ∧
    ((EPaperDisplay.send_bytes_hw true bs s).pins.cs = 1 ∧
      (EPaperDisplay.send_bytes_hw true bs s).err = false) ∧
    ((EPaperDisplay.send_bytes_hw false bs s).pins.cs = 0 ∧
      (EPaperDisplay.send_bytes_hw false bs s).err = true) :=
  ⟨⟨rfl, rfl⟩, ⟨rfl, rfl⟩, ⟨rfl, rfl⟩, ⟨rfl, rfl⟩, ⟨rfl, rfl⟩, ⟨rfl, rfl⟩⟩

/-- C4, counterexample.  The claim states that `set_window` checks
0 ≤ x < width and 0 ≤ y < height and raises ConfigurationError before any
hardware access when the check fails.  With x0 = 500 (far beyond width = 122)
the source emits its full 8-event sequence starting with the command 0x44 —
no check is performed and no error path exists. -/
theorem C4_counterexample :
    ¬ ((500 : Int) < 122) ∧
    (EPaperDisplay.set_window 500 0 121 249).head? =
      some (EPaperDisplay.Ev.cmd 0x44) ∧
    (EPaperDisplay.set_window 500 0 121 249).length = 8 := by
  decide

/-- C4, amended.  `set_window` performs no range validation: for every integer
coordinates, in or out of range, it completes and emits exactly the 0x44/0x45
sequence with each X truncated-and-masked and each Y split into two masked
bytes. -/
theorem C4_amended_no_range_check (x0 y0 x1 y1 : Int) :
    EPaperDisplay.set_window x0 y0 x1 y1 =
      [EPaperDisplay.Ev.cmd 0x44,
       EPaperDisplay.Ev.dat (EPaperDisplay.pyAnd8 (EPaperDisplay.pyShr x0 3)),
       EPaperDisplay.Ev.dat (EPaperDisplay.pyAnd8 (EPaperDisplay.pyShr x1 3)),
       EPaperDisplay.Ev.cmd 0x45,
       EPaperDisplay.Ev.dat (EPaperDisplay.pyAnd8 y0),
       EPaperDisplay.Ev.dat (EPaperDisplay.pyAnd8 (EPaperDisplay.pyShr y0 8)),
       EPaperDisplay.Ev.dat (EPaperDisplay.pyAnd8 y1),
       EPaperDisplay.Ev.dat (EPaperDisplay.pyAnd8 (EPaperDisplay.pyShr y1 8))] :=
  rfl

/-- C5: for every X coordinate, `set_window` encodes it as the single byte
`(x>>3)&0xFF`, so the calls with x = 0 and x = 5 produce identical traffic;
each Y coordinate is emitted as a little-endian 16-bit pair; and on the fixed
122×250 geometry `set_window(0,0,121,249)` yields X bytes (0x00, 0x0F) under
opcode 0x44 and Y bytes (0x00, 0x00, 0xF9, 0x00) under opcode 0x45. -/
theorem C5_set_window_encoding :
    (∀ y0 y1 : Int,
      EPaperDisplay.set_window 0 y0 121 y1 = EPaperDisplay.set_window 5 y0 121 y1) ∧
    (∀ x0 y0 x1 y1 : Int,
      EPaperDisplay.set_window x0 y0 x1 y1 =
        [EPaperDisplay.Ev.cmd 0x44,
         EPaperDisplay.Ev.dat (EPaperDisplay.pyAnd8 (EPaperDisplay.pyShr x0 3)),
         EPaperDisplay.Ev.dat (EPaperDisplay.pyAnd8 (EPaperDisplay.pyShr x1 3)),
         EPaperDisplay.Ev.cmd 0x45,
         EPaperDisplay.Ev.dat ((y0 % 65536).toNat % 256),
         EPaperDisplay.Ev.dat ((y0 % 65536).toNat / 256),
         EPaperDisplay.Ev.dat ((y1 % 65536).toNat % 256),
         EPaperDisplay.Ev.dat ((y1 % 65536).toNat / 256)]) ∧
    EPaperDisplay.set_window 0 0 121 249 =
      [EPaperDisplay.Ev.cmd 0x44, EPaperDisplay.Ev.dat 0x00,
       EPaperDisplay.Ev.dat 0x0F, EPaperDisplay.Ev.cmd 0x45,
       EPaperDisplay.Ev.dat 0x00, EPaperDisplay.Ev.dat 0x00,
       EPaperDisplay.Ev.dat 0xF9, EPaperDisplay.Ev.dat 0x00] := by
  have hlo : ∀ z : Int, EPaperDisplay.pyAnd8 z = (z % 65536).toNat % 256 := by
    intro z; simp only [EPaperDisplay.pyAnd8]; omega
  have hhi : ∀ z : Int,
      EPaperDisplay.pyAnd8 (EPaperDisplay.pyShr z 8) = (z % 65536).toNat / 256 := by
    intro z; simp only [EPaperDisplay.pyAnd8, EPaperDisplay.pyShr]; norm_num; omega
  refine ⟨fun y0 y1 => rfl, fun x0 y0 x1 y1 => ?_, by decide⟩
  rw [show EPaperDisplay.set_window x0 y0 x1 y1 =
      [EPaperDisplay.Ev.cmd 0x44,
       EPaperDisplay.Ev.dat (EPaperDisplay.pyAnd8 (EPaperDisplay.pyShr x0 3)),
       EPaperDisplay.Ev.dat (EPaperDisplay.pyAnd8 (EPaperDisplay.pyShr x1 3)),
       EPaperDisplay.Ev.cmd 0x45,
       EPaperDisplay.Ev.dat (EPaperDisplay.pyAnd8 y0),
       EPaperDisplay.Ev.dat (EPaperDisplay.pyAnd8 (EPaperDisplay.pyShr y0 8)),
       EPaperDisplay.Ev.dat (EPaperDisplay.pyAnd8 y1),
       EPaperDisplay.Ev.dat (EPaperDisplay.pyAnd8 (EPaperDisplay.pyShr y1 8))]
    from rfl, hlo y0, hhi y0, hlo y1, hhi y1]

/-- C6: `clear c` builds a buffer of exactly stride×height = 16×250 = 4000
bytes, every byte equal to the fill byte (witnessed by the count of `c` in the
buffer equalling its length), and then behaves identically to calling
`display` with that buffer; `clear_default` is the Python default fill 0xFF. -/
theorem C6_clear_refines_display (c : Nat) :
    EPaperDisplay.clear c =
      EPaperDisplay.display (List.replicate (16 * 250) c) ∧
    (List.replicate (16 * 250) c).length = 16 * 250 ∧
    (List.replicate (16 * 250) c).count c = 16 * 250 ∧
    EPaperDisplay.clear_default = EPaperDisplay.clear 0xFF :=
  ⟨rfl, List.length_replicate .., List.count_replicate_self .., rfl⟩

/-- C7: one `init` (the Reset→Ready configuration sequence) emits the
driver-output-control command 0x01 exactly once, immediately followed by the
three parameter bytes 0xF9, 0x00, 0x00, and the data-entry-mode command 0x11
exactly once, immediately followed by the single mode byte 0x03. -/
theorem C7_configure_driver_output_once :
    EPaperDisplay.countCmd 0x01 EPaperDisplay.init = 1 ∧
    (EPaperDisplay.afterCmd 0x01 EPaperDisplay.init).take 3 =
      [EPaperDisplay.Ev.dat 0xF9, EPaperDisplay.Ev.dat 0x00,
       EPaperDisplay.Ev.dat 0x00] ∧
    EPaperDisplay.countCmd 0x11 EPaperDisplay.init = 1 ∧
    (EPaperDisplay.afterCmd 0x11 EPaperDisplay.init).take 1 =
      [EPaperDisplay.Ev.dat 0x03] := by
  decide

/-- C8: `turn_on_display` (refresh) always emits the same byte sequence —
command 0x22, data 0xF7, command 0x20 — followed by the busy-wait; two
consecutive calls emit that identical sequence twice; and its pin effect is
idempotent: the pin state after the second call equals the state after the
first, from every starting pin state. -/
theorem C8_refresh_idempotent :
    EPaperDisplay.turn_on_display =
      [EPaperDisplay.Ev.cmd 0x22, EPaperDisplay.Ev.dat 0xF7,
       EPaperDisplay.Ev.cmd 0x20, EPaperDisplay.Ev.waitIdle] ∧
    EPaperDisplay.turn_on_display ++ EPaperDisplay.turn_on_display =
      [EPaperDisplay.Ev.cmd 0x22, EPaperDisplay.Ev.dat 0xF7,
       EPaperDisplay.Ev.cmd 0x20, EPaperDisplay.Ev.waitIdle] ++
      [EPaperDisplay.Ev.cmd 0x22, EPaperDisplay.Ev.dat 0xF7,
       EPaperDisplay.Ev.cmd 0x20, EPaperDisplay.Ev.waitIdle] ∧
    (∀ s : EPaperDisplay.PinState,
      EPaperDisplay.runChan
          (EPaperDisplay.runChan s EPaperDisplay.turn_on_display)
          EPaperDisplay.turn_on_display =
        EPaperDisplay.runChan s EPaperDisplay.turn_on_display) :=
  ⟨rfl, rfl, fun _ => rfl⟩

/-- C9: the busy-wait loop polls the busy line and sleeps a fixed 10 ms after
every busy poll; it returns exactly at the first poll that reads idle (≠ 1,
i.e. 0 on the binary line), having slept 10 ms per preceding busy poll; it
returns for some fuel iff some poll eventually reads idle; and on a line that
stays 1 every fuel bound is exhausted — the loop blocks forever. -/
theorem C9_wait_until_idle_poll (busy : Nat → Nat) :
    (∀ fuel k ms,
      EPaperDisplay.wait_until_idle_fuel busy 0 0 fuel = some (k, ms) →
      busy k ≠ 1 ∧ (∀ j, j < k → busy j = 1) ∧ ms = 10 * k) ∧
    ((∃ k, busy k ≠ 1) →
      ∃ p fuel, EPaperDisplay.wait_until_idle_fuel busy 0 0 fuel = some p) ∧
    ((∀ k, busy k = 1) →
      ∀ fuel, EPaperDisplay.wait_until_idle_fuel busy 0 0 fuel = none) := by
  refine ⟨?_, ?_, ?_⟩
  · intro fuel k ms h
    obtain ⟨h1, h2, h3, _⟩ := EPaperDisplay.wfuel_sound busy fuel 0 0 k ms h
    exact ⟨h1, fun j hj => h2 j (Nat.zero_le j) hj, by omega⟩
  · rintro ⟨k, hk⟩
    obtain ⟨p, hp⟩ :=
      EPaperDisplay.wfuel_complete busy k 0 0 (by rw [Nat.zero_add]; exact hk)
    exact ⟨p, k + 1, hp⟩
  · intro hall fuel
    exact EPaperDisplay.wfuel_diverges busy hall fuel 0 0

/-- C9, witness.  On the concrete busy stream that reads 1 on polls 0, 1, 2
and 0 afterwards, the loop returns at poll 3 having slept 30 ms = 10 ms per
busy poll. -/
theorem C9_wait_until_idle_poll_witness :
    (fun k => if k < 3 then 1 else 0) 3 ≠ 1 ∧ (30 : Nat) = 10 * 3 := by
  have h :=
    (C9_wait_until_idle_poll (fun k => if k < 3 then 1 else 0)).1 4 3 30 (by decide)
  exact ⟨h.1, h.2.2⟩

/-- C10: `set_cursor` and `set_window` accept every integer coordinate —
negative or beyond the panel size — complete without any check, and reduce
each coordinate to its field width: `set_cursor` emits `x&0xFF` and the
little-endian pair of `y mod 2^16`; `set_window` emits `(x>>3)&0xFF` per X
coordinate and the little-endian pair of `y mod 2^16` per Y coordinate. -/
theorem C10_truncating_encodings (x y x0 y0 x1 y1 : Int) :
    EPaperDisplay.set_cursor x y =
      [EPaperDisplay.Ev.cmd 0x4E, EPaperDisplay.Ev.dat ((x % 256).toNat),
       EPaperDisplay.Ev.cmd 0x4F,
       EPaperDisplay.Ev.dat ((y % 65536).toNat % 256),
       EPaperDisplay.Ev.dat ((y % 65536).toNat / 256)] ∧
    EPaperDisplay.set_window x0 y0 x1 y1 =
      [EPaperDisplay.Ev.cmd 0x44,
       EPaperDisplay.Ev.dat (((x0 / 8) % 256).toNat),
       EPaperDisplay.Ev.dat (((x1 / 8) % 256).toNat),
       EPaperDisplay.Ev.cmd 0x45,
       EPaperDisplay.Ev.dat ((y0 % 65536).toNat % 256),
       EPaperDisplay.Ev.dat ((y0 % 65536).toNat / 256),
       EPaperDisplay.Ev.dat ((y1 % 65536).toNat % 256),
       EPaperDisplay.Ev.dat ((y1 % 65536).toNat / 256)] := by
  have hb : ∀ z : Int, EPaperDisplay.pyAnd8 z = (z % 256).toNat := fun z => rfl
  have hlo : ∀ z : Int, EPaperDisplay.pyAnd8 z = (z % 65536).toNat % 256 := by
    intro z; simp only [EPaperDisplay.pyAnd8]; omega
  have hhi : ∀ z : Int,
      EPaperDisplay.pyAnd8 (EPaperDisplay.pyShr z 8) = (z % 65536).toNat / 256 := by
    intro z; simp only [EPaperDisplay.pyAnd8, EPaperDisplay.pyShr]; norm_num; omega
  have hx : ∀ z : Int,
      EPaperDisplay.pyAnd8 (EPaperDisplay.pyShr z 3) = ((z / 8) % 256).toNat := by
    intro z; simp only [EPaperDisplay.pyAnd8, EPaperDisplay.pyShr]; norm_num
  constructor
  · rw [show EPaperDisplay.set_cursor x y =
        [EPaperDisplay.Ev.cmd 0x4E,
         EPaperDisplay.Ev.dat (EPaperDisplay.pyAnd8 x),
         EPaperDisplay.Ev.cmd 0x4F,
         EPaperDisplay.Ev.dat (EPaperDisplay.pyAnd8 y),
         EPaperDisplay.Ev.dat (EPaperDisplay.pyAnd8 (EPaperDisplay.pyShr y 8))]
      from rfl, hb x, hlo y, hhi y]
  · rw [show EPaperDisplay.set_window x0 y0 x1 y1 =
        [EPaperDisplay.Ev.cmd 0x44,
         EPaperDisplay.Ev.dat (EPaperDisplay.pyAnd8 (EPaperDisplay.pyShr x0 3)),
         EPaperDisplay.Ev.dat (EPaperDisplay.pyAnd8 (EPaperDisplay.pyShr x1 3)),
         EPaperDisplay.Ev.cmd 0x45,
         EPaperDisplay.Ev.dat (EPaperDisplay.pyAnd8 y0),
         EPaperDisplay.Ev.dat (EPaperDisplay.pyAnd8 (EPaperDisplay.pyShr y0 8)),
         EPaperDisplay.Ev.dat (EPaperDisplay.pyAnd8 y1),
         EPaperDisplay.Ev.dat (EPaperDisplay.pyAnd8 (EPaperDisplay.pyShr y1 8))]
      from rfl, hx x0, hx x1, hlo y0, hhi y0, hlo y1, hhi y1]
